import Mathlib

/-!
A shallow embedding of the core rendering logic of `githubfetch`
(src/githubfetch/githubfetch.py): the ANSI color helper, the trailing-blank
trim utility, the profile text formatter, the contribution heatmap renderer,
and the side-by-side compositor, together with theorems checking the
specification claims about them.

Machine integers are modelled as `Nat`/`Int`; the Python float arithmetic in
the compositor geometry is modelled as exact rational arithmetic (which agrees
with the float computation on the dyadic aspect ratios used in the theorems);
Python dictionaries coming from the GitHub API are modelled as structures, with
a missing calendar rendered as `Option`.
-/

namespace Githubfetch

/-- The dynamic attribute state of the process-wide `Color` object: the heatmap
renderer adds `dark_green` and `light_green` attributes on first use
(githubfetch.py lines 406-411), so whether those attributes are present is part
of the shared mutable state and is threaded explicitly. -/
structure ColorState where
  darkGreen : Bool
  lightGreen : Bool
deriving DecidableEq

/-- The state of the `Color` object right after `Color.__init__`
(githubfetch.py lines 39-48): no `dark_green`, no `light_green`. -/
def initColorState : ColorState := ⟨false, false⟩

/-- Model of `getattr(self, color_name, self.reset)` over the `Color` attribute table
(githubfetch.py lines 41-48), including the dynamically added
`dark_green`/`light_green` attributes when present; an unknown name falls back
to the reset code. -/
def colorCode (st : ColorState) (name : String) : String :=
  if name = "red" then "\x1b[38;5;1m"
  else if name = "green" then "\x1b[38;5;149m"
  else if name = "yellow" then "\x1b[38;5;11m"
  else if name = "light_blue" then "\x1b[38;5;45m"
  else if name = "light_red" then "\x1b[38;5;9m"
  else if name = "orange" then "\x1b[38;5;208m"
  else if name = "blue" then "\x1b[38;5;21m"
  else if name = "dark_green" && st.darkGreen then "\x1b[38;5;22m"
  else if name = "light_green" && st.lightGreen then "\x1b[38;5;118m"
  else "\x1b[00m"

/-- Embedding of `Color.color` (githubfetch.py lines 50-52): the looked-up escape code,
the text, then a reset. -/
def colorize (st : ColorState) (name text : String) : String :=
  colorCode st name ++ text ++ "\x1b[00m"

/-- Embedding of `create_hyperlink` (githubfetch.py lines 57-59): OSC-8 hyperlink escapes
around the display text (Python `\a` is the BEL character `\x07`). -/
def create_hyperlink (url text : String) : String :=
  "\x1b]8;;" ++ url ++ "\x07" ++ text ++ "\x1b]8;;\x07"

/-- Python `not s.strip()`: `str.strip()` yields the empty string exactly when
every character of `s` is whitespace, so a line is "blank" when all of its
characters are whitespace. -/
def pyBlank (s : String) : Bool :=
  s.data.all Char.isWhitespace

/-- Embedding of `trim_trailing_empty_lines` (githubfetch.py lines 609-620): if the list is
empty return it unchanged; otherwise scan indices from the end while the line
is blank and keep `lines[:last_non_empty + 1]`.  The backwards index scan is
rendered as dropping the maximal blank suffix. -/
def trim_trailing_empty_lines (lines : List String) : List String :=
  if lines.isEmpty then lines
  else (lines.reverse.dropWhile pyBlank).reverse

/-- The first element surviving `dropWhile p` does not satisfy `p`. -/
theorem head?_dropWhile_false {p : String → Bool} :
    ∀ (l : List String) (a : String), (l.dropWhile p).head? = some a → p a = false := by
  intro l
  induction l with
  | nil => intro a h; simp [List.dropWhile] at h
  | cons x xs ih =>
    intro a h
    by_cases hx : p x
    · rw [List.dropWhile_cons_of_pos hx] at h
      exact ih a h
    · rw [List.dropWhile_cons_of_neg hx] at h
      simp at h
      subst h
      simpa using hx

/-- Dropping while a predicate holds leaves a list alone when its head does not satisfy `p`. -/
theorem dropWhile_of_head_false {p : String → Bool} (l : List String) (a : String)
    (ha : l.head? = some a) (hpa : p a = false) : l.dropWhile p = l := by
  cases l with
  | nil => simp at ha
  | cons x xs =>
    simp at ha
    subst ha
    exact List.dropWhile_cons_of_neg (by simp [hpa])

/-- C6: `trim_trailing_empty_lines` removes exactly the maximal run of trailing
blank lines: the result is a prefix of the input, the removed suffix is
all-blank, the result never ends in a blank line, and the input comes back
unchanged when it is empty or ends in a non-blank line. -/
theorem C6_trim_removes_exactly_trailing_blanks (lines : List String) :
    trim_trailing_empty_lines lines <+: lines ∧
    (∃ suffix, lines = trim_trailing_empty_lines lines ++ suffix ∧
      ∀ s ∈ suffix, pyBlank s = true) ∧
    (∀ s, (trim_trailing_empty_lines lines).getLast? = some s → pyBlank s = false) ∧
    (lines = [] → trim_trailing_empty_lines lines = lines) ∧
    (∀ s, lines.getLast? = some s → pyBlank s = false →
      trim_trailing_empty_lines lines = lines) := by
  rcases h : lines with _ | ⟨x, xs⟩
  · refine ⟨by simp [trim_trailing_empty_lines], ⟨[], by simp [trim_trailing_empty_lines], ?_⟩, ?_, ?_, ?_⟩
    · intro s hs; simp at hs
    · intro s hs; simp [trim_trailing_empty_lines] at hs
    · intro _; rfl
    · intro s hs; simp at hs
  · have hne : (x :: xs).isEmpty = false := by simp
    have htrim : trim_trailing_empty_lines (x :: xs)
        = ((x :: xs).reverse.dropWhile pyBlank).reverse := by
      simp [trim_trailing_empty_lines]
    refine ⟨?_, ?_, ?_, ?_, ?_⟩
    · rw [htrim]
      have hsplit : (x :: xs).reverse.takeWhile pyBlank ++ (x :: xs).reverse.dropWhile pyBlank
          = (x :: xs).reverse := List.takeWhile_append_dropWhile pyBlank _
      refine ⟨((x :: xs).reverse.takeWhile pyBlank).reverse, ?_⟩
      rw [← List.reverse_append, hsplit, List.reverse_reverse]
    · rw [htrim]
      refine ⟨((x :: xs).reverse.takeWhile pyBlank).reverse, ?_, ?_⟩
      · have hsplit : (x :: xs).reverse.takeWhile pyBlank ++ (x :: xs).reverse.dropWhile pyBlank
            = (x :: xs).reverse := List.takeWhile_append_dropWhile pyBlank _
        rw [← List.reverse_append, hsplit, List.reverse_reverse]
      · intro s hs
        rw [List.mem_reverse] at hs
        exact List.mem_takeWhile_imp hs
    · intro s hs
      rw [htrim, List.getLast?_reverse] at hs
      exact head?_dropWhile_false _ s hs
    · intro hcon; cases hcon
    · intro s hs hblank
      rw [htrim]
      rw [← List.head?_reverse] at hs
      rw [dropWhile_of_head_false _ s hs hblank, List.reverse_reverse]

/-- Witness for C6 at a concrete input. -/
theorem C6_trim_removes_exactly_trailing_blanks_witness :
    trim_trailing_empty_lines ["a", "b"] = ["a", "b"] ∧
    trim_trailing_empty_lines ["a", " ", ""] <+: ["a", " ", ""] := by
  constructor
  · exact (C6_trim_removes_exactly_trailing_blanks ["a", "b"]).2.2.2.2 "b" (by decide) (by decide)
  · exact (C6_trim_removes_exactly_trailing_blanks ["a", " ", ""]).1

/-- C7: `trim_trailing_empty_lines` is idempotent, and collapses an all-blank
list to the empty list. -/
theorem C7_trim_idempotent_and_allblank (lines : List String) :
    trim_trailing_empty_lines (trim_trailing_empty_lines lines)
      = trim_trailing_empty_lines lines ∧
    ((∀ s ∈ lines, pyBlank s = true) → trim_trailing_empty_lines lines = []) := by
  constructor
  · rcases h : trim_trailing_empty_lines lines with _ | ⟨y, ys⟩
    · rfl
    · have hlast : ∀ s, (y :: ys).getLast? = some s → pyBlank s = false := by
        intro s hs
        refine (C6_trim_removes_exactly_trailing_blanks lines).2.2.1 s ?_
        rw [h]; exact hs
      rcases hs : (y :: ys).getLast? with _ | s
      · exact absurd (List.getLast?_eq_none_iff.mp hs) (by simp)
      · exact (C6_trim_removes_exactly_trailing_blanks (y :: ys)).2.2.2.2 s hs (hlast s hs)
  · intro hall
    rcases lines with _ | ⟨x, xs⟩
    · rfl
    · have : (x :: xs).reverse.dropWhile pyBlank = [] := by
        simp only [List.dropWhile_eq_nil_iff, List.mem_reverse]
        exact hall
      have h2 : trim_trailing_empty_lines (x :: xs)
          = ((x :: xs).reverse.dropWhile pyBlank).reverse := by
        simp [trim_trailing_empty_lines]
      rw [h2, this, List.reverse_nil]

/-- Witness for C7 at a concrete input. -/
theorem C7_trim_idempotent_and_allblank_witness :
    trim_trailing_empty_lines [" ", ""] = [] := by
  exact (C7_trim_idempotent_and_allblank [" ", ""]).2 (by decide)

/-- A profile record: the fields of the REST `/users/{username}` response that
`get_user_info_lines` reads.  Optional string fields model Python `None`;
`data.get(...) or default` also treats an empty string as missing, which
`pyOr` reproduces. -/
structure UserData where
  login : String
  blog : Option String
  public_repos : Nat
  bio : Option String
  location : Option String
  followers : Nat
  following : Nat
deriving DecidableEq

/-- A pinned-repository record as returned by the GraphQL query
(githubfetch.py lines 548-565).  Only the presence of `primaryLanguage`
matters to the formatter, so it is modelled as a flag. -/
structure RepoData where
  name : String
  description : Option String
  owner_login : Option String
  stargazerCount : Nat
  forkCount : Nat
  primaryLanguage : Bool
deriving DecidableEq

/-- Python `value or default` for an optional string: `None` and `""` are
falsy. -/
def pyOr (v : Option String) (dflt : String) : String :=
  match v with
  | none => dflt
  | some s => if s = "" then dflt else s

/-- Python `' ' * n`: a run of `n` spaces. -/
def spaces (n : Nat) : String := String.mk (List.replicate n ' ')

/-- Python `s.ljust(n)`: pad with spaces on the right to length `n`. -/
def ljust (s : String) (n : Nat) : String := s ++ spaces (n - s.length)

/-- The fixed ordered label set of the `info` dictionary
(githubfetch.py lines 627-630). -/
def infoLabels : List String :=
  ["Website", "Repos", "Bio", "From", "Followers", "Following", "Starred"]

/-- Embedding of `max(len(label) for label in info.keys())` (githubfetch.py line 631). -/
def max_label_len : Nat := (infoLabels.map String.length).foldr max 0

/-- Embedding of `get_user_info_lines` (githubfetch.py lines 624-680), with Python
`textwrap.wrap` abstracted as the `wrap` argument (the claims proved below
hold for every wrapping function).  `wrapped_value[0]` is modelled as
`headD ""` (in Python an empty wrap result would raise IndexError; it does not
occur for the non-blank values reaching that call). -/
def get_user_info_lines (st : ColorState) (wrap : String → Int → List String)
    (data : UserData) (starred_count : Nat) (pinned_repos : List RepoData)
    (text_width : Int) : List String :=
  let username := data.login
  let website := pyOr data.blog "N/A"
  let bio := pyOr data.bio "N/A"
  let fromLoc := pyOr data.location "Not Provided"
  let profile_url := "https://github.com/" ++ username
  let display_title := colorize st "green" username ++ colorize st "reset" "@"
    ++ colorize st "green" "github"
  let title := create_hyperlink profile_url display_title
  let sep := colorize st "green" (String.mk (List.replicate (username.length + 7) '-'))
  let pad := max_label_len + 2
  let fmtLabel := fun (label : String) => colorize st "yellow" (ljust (label ++ ":") pad)
  let websiteLines :=
    if website ≠ "N/A" then
      let schemed_url := if website.startsWith "http://" || website.startsWith "https://"
        then website else "https://" ++ website
      let wrapped := wrap website text_width
      let linked := create_hyperlink schemed_url (wrapped.headD "")
      (fmtLabel "Website" ++ colorize st "reset" linked)
        :: (wrapped.drop 1).map (fun l => spaces pad ++ colorize st "reset" l)
    else [fmtLabel "Website" ++ colorize st "reset" website]
  let reposLine := fmtLabel "Repos" ++ colorize st "reset" (toString data.public_repos)
  let bioLines :=
    if bio ≠ "N/A" then
      let wrapped := wrap bio text_width
      (fmtLabel "Bio" ++ colorize st "reset" (wrapped.headD ""))
        :: (wrapped.drop 1).map (fun l => spaces pad ++ colorize st "reset" l)
    else [fmtLabel "Bio" ++ colorize st "reset" bio]
  let fromLine := fmtLabel "From" ++ colorize st "reset" fromLoc
  let followersLine := fmtLabel "Followers" ++ colorize st "reset" (toString data.followers)
  let followingLine := fmtLabel "Following" ++ colorize st "reset" (toString data.following)
  let starredLine := fmtLabel "Starred" ++ colorize st "reset" (toString starred_count)
  let repoSection :=
    if pinned_repos.isEmpty then ([] : List String)
    else
      colorize st "green" "Pinned Repositories:"
        :: (pinned_repos.map (fun repo =>
          let lang_color_name := if repo.primaryLanguage then "green" else "reset"
          let lang_dot := colorize st lang_color_name "●"
          let repo_owner := repo.owner_login.getD username
          let repo_url := "https://github.com/" ++ repo_owner ++ "/" ++ repo.name
          let repo_name := create_hyperlink repo_url (colorize st "orange" repo.name)
          let stars := colorize st "yellow" ("★ " ++ toString repo.stargazerCount)
          let forks := colorize st "light_blue" ("⑂ " ++ toString repo.forkCount)
          let headLine := " " ++ lang_dot ++ " " ++ repo_name ++ " (" ++ stars ++ " / " ++ forks ++ ")"
          match repo.description with
          | none => [headLine]
          | some desc =>
            if desc = "" then [headLine]
            else headLine :: (wrap desc (text_width - 3)).map
              (fun l => "   " ++ colorize st "reset" l))).flatten
  [title, sep] ++ websiteLines ++ [reposLine] ++ bioLines
    ++ [fromLine, followersLine, followingLine, starredLine] ++ repoSection

/-- C9: the first line of the profile block is the hyperlinked colorized
`login@github` title, the second is a green separator rule made of dashes, and
the number of dashes in that rule is `len(login) + 7`. -/
theorem C9_title_and_separator (st : ColorState) (wrap : String → Int → List String)
    (data : UserData) (starred_count : Nat) (pinned_repos : List RepoData)
    (text_width : Int) :
    (get_user_info_lines st wrap data starred_count pinned_repos text_width).head?
      = some (create_hyperlink ("https://github.com/" ++ data.login)
          (colorize st "green" data.login ++ colorize st "reset" "@"
            ++ colorize st "green" "github")) ∧
    (get_user_info_lines st wrap data starred_count pinned_repos text_width).get? 1
      = some (colorize st "green"
          (String.mk (List.replicate (data.login.length + 7) '-'))) ∧
    (String.mk (List.replicate (data.login.length + 7) '-')).length
      = data.login.length + 7 := by
  refine ⟨rfl, rfl, ?_⟩
  have hlen : ∀ l : List Char, (String.mk l).length = l.length := fun _ => rfl
  rw [hlen, List.length_replicate]

/-- Two strings whose character sequences differ at some index are different. -/
theorem string_ne_of_get_ne (s t : String) (i : Nat) (a b : Char)
    (hs : s.data.get? i = some a) (ht : t.data.get? i = some b) (hab : a ≠ b) :
    s ≠ t := by
  intro he
  subst he
  rw [hs] at ht
  exact hab (Option.some.inj ht)

/-- Helper for C10: a profile block built with an empty repository list never
contains the "Pinned Repositories:" section header (every one of its lines
starts with the OSC-8 escape, the yellow label escape, the green escape
followed by a dash, or indentation spaces, while the header is the green
escape followed by `P`). -/
theorem pinned_header_not_mem (st : ColorState) (wrap : String → Int → List String)
    (data : UserData) (starred_count : Nat) (text_width : Int) :
    colorize st "green" "Pinned Repositories:"
      ∉ get_user_info_lines st wrap data starred_count [] text_width := by
  intro hmem
  set hdr := colorize st "green" "Pinned Repositories:" with hhdr
  have hdr11 : hdr.data.get? 11 = some 'P' := rfl
  have hdr0 : hdr.data.get? 0 = some '\x1b' := rfl
  have hdr1 : hdr.data.get? 1 = some '[' := rfl
  have hdr8 : hdr.data.get? 8 = some '4' := rfl
  have hlabel : ∀ (label tail : String), hdr ≠ colorize st "yellow" label ++ tail := by
    intro label tail
    refine string_ne_of_get_ne hdr _ 8 '4' '1' hdr8 ?_ (by decide)
    rfl
  have hspaces : ∀ tail : String, hdr ≠ spaces (max_label_len + 2) ++ tail := by
    intro tail
    refine string_ne_of_get_ne hdr _ 0 '\x1b' ' ' hdr0 ?_ (by decide)
    rfl
  have htitle : ∀ u t : String, hdr ≠ create_hyperlink u t := by
    intro u t
    refine string_ne_of_get_ne hdr _ 1 '[' ']' hdr1 ?_ (by decide)
    rfl
  have hsep : hdr ≠ colorize st "green"
      (String.mk (List.replicate (data.login.length + 7) '-')) := by
    refine string_ne_of_get_ne hdr _ 11 'P' '-' hdr11 ?_ (by decide)
    rfl
  simp only [get_user_info_lines, List.isEmpty_nil, if_true, List.append_nil,
    List.mem_append, List.mem_cons, List.mem_singleton, List.not_mem_nil, or_false] at hmem
  rcases hmem with ((((h | h) | hw) | h) | hb) | (h | h | h | h)
  · exact htitle _ _ h
  · exact hsep h
  · split at hw
    · rcases List.mem_cons.mp hw with h | h
      · exact hlabel _ _ h
      · obtain ⟨l, _, hl⟩ := List.mem_map.mp h
        exact hspaces _ hl.symm
    · exact hlabel _ _ (List.mem_singleton.mp hw)
  · exact hlabel _ _ h
  · split at hb
    · rcases List.mem_cons.mp hb with h | h
      · exact hlabel _ _ h
      · obtain ⟨l, _, hl⟩ := List.mem_map.mp h
        exact hspaces _ hl.symm
    · exact hlabel _ _ (List.mem_singleton.mp hb)
  · exact hlabel _ _ h
  · exact hlabel _ _ h
  · exact hlabel _ _ h
  · exact hlabel _ _ h

/-- A single day of the contribution calendar: the ISO `YYYY-MM-DD` date
string and the non-negative contribution count. -/
structure ContributionDay where
  date : String
  contributionCount : Nat
deriving DecidableEq

/-- One week of the contribution calendar: its (possibly partial) list of
days in source order. -/
structure ContributionWeek where
  contributionDays : List ContributionDay
deriving DecidableEq

/-- The contribution calendar returned by the GraphQL query: total count and
the chronologically ordered weeks. -/
structure ContributionCalendar where
  totalContributions : Nat
  weeks : List ContributionWeek
deriving DecidableEq

/-- Gregorian leap year. -/
def isLeapYear (y : Nat) : Bool := (y % 4 = 0 && y % 100 ≠ 0) || y % 400 = 0

/-- Number of days in a month of a given year. -/
def daysInMonth (y m : Nat) : Nat :=
  if m = 2 then (if isLeapYear y then 29 else 28)
  else if m = 4 || m = 6 || m = 9 || m = 11 then 30
  else 31

/-- Python `s.split("-")` on the character list of `s` (structural recursion,
so that concrete dates evaluate inside the kernel). -/
def pySplitDash : List Char → List (List Char)
  | [] => [[]]
  | c :: cs =>
    let r := pySplitDash cs
    if c = '-' then [] :: r
    else
      match r with
      | [] => [[c]]
      | h :: t => (c :: h) :: t

/-- Python `int(s)` for a string of decimal digits: `none` models the
`ValueError` raised on an empty or non-digit string (signs and surrounding
whitespace, which Python also accepts, do not occur in API dates). -/
def pyIntDigits (cs : List Char) : Option Nat :=
  if cs.isEmpty then none
  else cs.foldl (fun acc c =>
    match acc with
    | none => none
    | some n => if '0' ≤ c && c ≤ '9' then some (n * 10 + (c.toNat - 48)) else none)
    (some 0)

/-- Model of `datetime.datetime.strptime(date_str, "%Y-%m-%d").date()`: parse an ISO
date, failing (as Python raises ValueError, caught at githubfetch.py
lines 465-467) unless the string has three dash-separated decimal components
forming a valid calendar date. -/
def parseDate (s : String) : Option (Nat × Nat × Nat) :=
  match (pySplitDash s.data).map pyIntDigits with
  | [some y, some m, some d] =>
    if 1 ≤ m && m ≤ 12 && 1 ≤ d && d ≤ daysInMonth y m then some (y, m, d) else none
  | _ => none

/-- Model of `date.weekday()` (Monday = 0 … Sunday = 6), computed by Zeller's
congruence. -/
def pythonWeekday (y m d : Nat) : Nat :=
  let mz := if m ≤ 2 then m + 12 else m
  let yz := if m ≤ 2 then y - 1 else y
  let k := yz % 100
  let j := yz / 100
  let h := (d + 13 * (mz + 1) / 5 + k + k / 4 + j / 4 + 5 * j) % 7
  (h + 5) % 7

/-- The weekday index used by the heatmap grid: `(weekday + 1) % 7`, i.e.
Sunday = 0 … Saturday = 6 (githubfetch.py line 463). -/
def sundayIndex (y m d : Nat) : Nat := (pythonWeekday y m d + 1) % 7

/-- Model of `calendar.month_abbr[m]` for `m` in 1..12, the `month_names` table built
at githubfetch.py line 431.  An out-of-range month would raise `KeyError` in
Python; it is mapped to `""` here and does not occur for API-provided dates. -/
def monthAbbr (m : Nat) : String :=
  if m = 1 then "Jan" else if m = 2 then "Feb" else if m = 3 then "Mar"
  else if m = 4 then "Apr" else if m = 5 then "May" else if m = 6 then "Jun"
  else if m = 7 then "Jul" else if m = 8 then "Aug" else if m = 9 then "Sep"
  else if m = 10 then "Oct" else if m = 11 then "Nov" else if m = 12 then "Dec"
  else ""

/-- The month number extracted from a week's first contribution day
(githubfetch.py lines 445-452): only the first day is examined (the loop body
ends in an unconditional `break`); the date must split into three
dash-separated parts, and `int(...)` of the middle part must succeed (on a
non-numeric part Python would raise; that case is mapped to `none` here and
does not occur for API-provided dates). -/
def weekFirstMonth (week : ContributionWeek) : Option Nat :=
  match week.contributionDays.head? with
  | none => none
  | some day =>
    let parts := pySplitDash day.date.data
    if parts.length = 3 then pyIntDigits (parts.getD 1 []) else none

/-- The month-label scan (githubfetch.py lines 443-452): walk the weeks in
order carrying `current_month`; whenever a week's first tracked day has a
month different from `current_month`, record `(week_idx, month_abbr)` and
update `current_month`. -/
def monthLabelsAux (cur : Option Nat) (i : Nat) : List ContributionWeek → List (Nat × String)
  | [] => []
  | w :: ws =>
    match weekFirstMonth w with
    | none => monthLabelsAux cur (i + 1) ws
    | some m =>
      if some m ≠ cur then (i, monthAbbr m) :: monthLabelsAux (some m) (i + 1) ws
      else monthLabelsAux cur (i + 1) ws

/-- The recorded `month_labels` list for a calendar's weeks. -/
def month_labels (weeks : List ContributionWeek) : List (Nat × String) :=
  monthLabelsAux none 0 weeks

/-- The value of `current_month` after scanning a list of weeks starting from
`cur`: the month of the last week with a tracked first day, else `cur`. -/
def trackAfter (cur : Option Nat) (ws : List ContributionWeek) : Option Nat :=
  ws.foldl (fun c w => match weekFirstMonth w with | some m => some m | none => c) cur

/-- Rendering of the month-label header row (githubfetch.py lines 492-503):
starting from `"   "` and `last_pos = -3`, each `(week_idx, name)` label
contributes `2 * (week_idx - last_pos - 1)` spaces (clamped at zero, as Python
string repetition is for negative counts) followed by the light-blue 3-letter
name, and advances `last_pos` to `week_idx + len(name[:3]) // 2`. -/
def render_month_header (st : ColorState) (labels : List (Nat × String)) : String :=
  (labels.foldl (fun (acc : String × Int) lbl =>
    let week_idx := (lbl.1 : Int)
    let name3 := String.mk (lbl.2.data.take 3)
    let sps := week_idx - acc.2 - 1
    (acc.1 ++ String.mk (List.replicate (sps * 2).toNat ' ')
        ++ colorize st "light_blue" name3,
      week_idx + (name3.length : Int) / 2)) ("   ", (-3 : Int))).1

/-- The per-week weekday lookup table (githubfetch.py lines 455-467): days
whose dates fail to parse are skipped; a later day with the same weekday
overrides an earlier one (dict assignment). -/
def day_lookup (week : ContributionWeek) (day_idx : Nat) : Option ContributionDay :=
  (week.contributionDays.filter (fun day =>
    match parseDate day.date with
    | some (y, m, d) => sundayIndex y m d = day_idx
    | none => false)).getLast?

/-- The quartile thresholds (githubfetch.py lines 426-428). -/
def q1 (max_contributions : Nat) : Nat := max 1 (max_contributions / 4)

/-- See `q1`. -/
def q2 (max_contributions : Nat) : Nat := max 2 (max_contributions / 2)

/-- See `q1`. -/
def q3 (max_contributions : Nat) : Nat := max 3 (3 * max_contributions / 4)

/-- The index into `contribution_blocks` chosen for a day count
(githubfetch.py lines 475-484). -/
def block_index (a b c count : Nat) : Nat :=
  if count = 0 then 0
  else if count ≤ a then 1
  else if count ≤ b then 2
  else if count ≤ c then 3
  else 4

/-- Python `max(...)` over a list (`max` raises on an empty list in Python;
`0` is returned here, and the renderer only evaluates it on non-empty
lists). -/
def pyMax (l : List Nat) : Nat := l.foldr max 0

/-- All day counts of the calendar, flattened week by week
(githubfetch.py lines 415-418). -/
def all_days (weeks : List ContributionWeek) : List Nat :=
  (weeks.map (fun w => w.contributionDays.map (fun d => d.contributionCount))).flatten

/-- Embedding of `get_contributions_heatmap_lines` (githubfetch.py lines 375-535), with the
process-wide color-object state threaded explicitly: `contribution_blocks` is
built (line 397) before `dark_green`/`light_green` are added to the color
object (lines 406-411), so the blocks see the incoming state while everything
after line 411 sees the extended state.  Returns the produced lines together
with the color state after the call. -/
def get_contributions_heatmap_lines (st : ColorState) (username : String)
    (contributions_data : Option ContributionCalendar) (text_width : Int) :
    List String × ColorState :=
  match contributions_data with
  | none =>
    ([colorize st "red" "No contribution data available.",
      colorize st "yellow" "Please check if:",
      colorize st "yellow" "  1. Your GitHub token is valid (try \x27githubfetch --reset-token\x27)",
      colorize st "yellow" "  2. The username exists on GitHub",
      colorize st "yellow" "  3. The user has public contribution activity"], st)
  | some data =>
    let total_contributions := data.totalContributions
    let weeks := data.weeks
    if total_contributions = 0 || weeks.isEmpty then
      ([colorize st "yellow"
          ("No contributions found for user \x27" ++ username ++ "\x27 in the past year.")], st)
    else
      let contribution_blocks :=
        [colorize st "reset" "·", colorize st "light_green" "▪", colorize st "green" "▪",
         colorize st "green" "■", colorize st "dark_green" "■"]
      let st2 : ColorState := ⟨true, true⟩
      let days := all_days weeks
      if days.isEmpty then
        ([colorize st2 "yellow"
            ("No contribution data found for \x27" ++ username ++ "\x27 in the past year.")], st2)
      else
        let max_contributions := pyMax days
        let a := q1 max_contributions
        let b := q2 max_contributions
        let c := q3 max_contributions
        let header := colorize st2 "green" "Contributions:" ++ " "
          ++ colorize st2 "yellow" (toString total_contributions)
        let labels := month_labels weeks
        let month_header_lines :=
          if labels.isEmpty then ([] : List String) else [render_month_header st2 labels]
        let week_block := fun (week : ContributionWeek) (day_idx : Nat) =>
          match day_lookup week day_idx with
          | some day => contribution_blocks.getD (block_index a b c day.contributionCount) ""
          | none => " "
        let day_label := fun (day_idx : Nat) =>
          colorize st2 "yellow" (["S", "M", "T", "W", "T", "F", "S"].getD day_idx "")
        let gridRow := fun (day_idx : Nat) =>
          day_label day_idx ++ " "
            ++ String.intercalate " " (weeks.map (fun w => week_block w day_idx))
        let rows := (List.range 7).map gridRow
        let legend := contribution_blocks.getD 0 "" ++ "None "
          ++ contribution_blocks.getD 1 "" ++ "Few "
          ++ contribution_blocks.getD 2 "" ++ "Some "
          ++ contribution_blocks.getD 3 "" ++ "Many "
          ++ contribution_blocks.getD 4 "" ++ "Lots"
        (header :: month_header_lines ++ rows ++ [legend], st2)

/-- Every element of a list is bounded by `pyMax`. -/
theorem le_pyMax (l : List Nat) : ∀ a ∈ l, a ≤ pyMax l := by
  induction l with
  | nil => simp
  | cons x xs ih =>
    intro a ha
    rcases List.mem_cons.mp ha with rfl | ha2
    · exact le_max_left _ _
    · exact le_trans (ih a ha2) (le_max_right _ _)

/-- Applied to a non-empty list, `pyMax` returns one of its elements. -/
theorem pyMax_mem : ∀ (l : List Nat), l ≠ [] → pyMax l ∈ l := by
  intro l
  induction l with
  | nil => intro h; exact absurd rfl h
  | cons x xs ih =>
    intro _
    rcases eq_or_ne xs [] with rfl | hxs
    · simp [pyMax, Nat.max_zero]
    · have hm : pyMax (x :: xs) = max x (pyMax xs) := rfl
      rcases le_total (pyMax xs) x with hle | hle
      · rw [hm, max_eq_left hle]; exact List.mem_cons_self _ _
      · rw [hm, max_eq_right hle]; exact List.mem_cons_of_mem _ (ih hxs)

/-- C1: for a rendered calendar, `maxCount` is the maximum flattened day
count, the thresholds are `max 1 (maxCount/4)`, `max 2 (maxCount/2)` and
`max 3 (3*maxCount/4)` with integer division, and the glyph chosen for a day
count is level 0 iff the count is 0, level 1 iff `0 < count ≤ q1` (in
particular a count of exactly `q1` gets level 1, not 2), level 2 iff
`q1 < count ≤ q2`, level 3 iff `q2 < count ≤ q3`, and level 4 otherwise. -/
theorem C1_intensity_levels (weeks : List ContributionWeek) (count m : Nat)
    (h : all_days weeks ≠ []) (hm : m = pyMax (all_days weeks)) :
    (∀ d ∈ all_days weeks, d ≤ m) ∧ m ∈ all_days weeks ∧
    q1 m = max 1 (m / 4) ∧ q2 m = max 2 (m / 2) ∧ q3 m = max 3 (3 * m / 4) ∧
    (block_index (q1 m) (q2 m) (q3 m) count = 0 ↔ count = 0) ∧
    (block_index (q1 m) (q2 m) (q3 m) count = 1 ↔ 0 < count ∧ count ≤ q1 m) ∧
    (block_index (q1 m) (q2 m) (q3 m) count = 2 ↔ q1 m < count ∧ count ≤ q2 m) ∧
    (block_index (q1 m) (q2 m) (q3 m) count = 3 ↔ q2 m < count ∧ count ≤ q3 m) ∧
    (block_index (q1 m) (q2 m) (q3 m) count = 4 ↔ q3 m < count) ∧
    block_index (q1 m) (q2 m) (q3 m) (q1 m) = 1 := by
  have h1 : 1 ≤ q1 m := le_max_left _ _
  have h12 : q1 m ≤ q2 m := by
    simp only [q1, q2, Nat.max_def]
    split_ifs <;> omega
  have h23 : q2 m ≤ q3 m := by
    simp only [q2, q3, Nat.max_def]
    split_ifs <;> omega
  subst hm
  refine ⟨le_pyMax _, pyMax_mem _ h, rfl, rfl, rfl, ?_, ?_, ?_, ?_, ?_, ?_⟩
  all_goals simp only [block_index]
  all_goals split_ifs <;> first | omega | simp_all

/-- Witness for C1 at a concrete one-week calendar with maximum count 4. -/
theorem C1_intensity_levels_witness :
    block_index (q1 4) (q2 4) (q3 4) 1 = 1 ↔ 0 < 1 ∧ 1 ≤ q1 4 :=
  (C1_intensity_levels [⟨[⟨"2024-01-07", 4⟩]⟩] 1 4 (by decide)
    (by decide)).2.2.2.2.2.2.1

/-- C2 counterexample: an absent calendar yields a five-line error block, not
a single explanatory line. -/
theorem C2_absent_not_single_line :
    (get_contributions_heatmap_lines initColorState "octocat" none 80).1.length ≠ 1 := by
  decide

/-- C2 amended: an absent calendar produces the five-line error block, while a
present calendar with zero total contributions produces the single
"no contributions in the past year" line; the two outputs differ, neither
contains a grid, and neither touches the color state. -/
theorem C2_amended_empty_states (st : ColorState) (username : String) (w : Int)
    (cal : ContributionCalendar) (hz : cal.totalContributions = 0) :
    (get_contributions_heatmap_lines st username none w).1
      = [colorize st "red" "No contribution data available.",
         colorize st "yellow" "Please check if:",
         colorize st "yellow" "  1. Your GitHub token is valid (try \x27githubfetch --reset-token\x27)",
         colorize st "yellow" "  2. The username exists on GitHub",
         colorize st "yellow" "  3. The user has public contribution activity"] ∧
    (get_contributions_heatmap_lines st username (some cal) w).1
      = [colorize st "yellow"
          ("No contributions found for user \x27" ++ username ++ "\x27 in the past year.")] ∧
    (get_contributions_heatmap_lines st username none w).1.length = 5 ∧
    (get_contributions_heatmap_lines st username (some cal) w).1.length = 1 ∧
    (get_contributions_heatmap_lines st username (some cal) w).1
      ≠ (get_contributions_heatmap_lines st username none w).1 ∧
    (get_contributions_heatmap_lines st username none w).2 = st ∧
    (get_contributions_heatmap_lines st username (some cal) w).2 = st := by
  have hsome : get_contributions_heatmap_lines st username (some cal) w
      = ([colorize st "yellow"
          ("No contributions found for user \x27" ++ username ++ "\x27 in the past year.")], st) := by
    simp [get_contributions_heatmap_lines, hz]
  have hnone : (get_contributions_heatmap_lines st username none w).1
      = [colorize st "red" "No contribution data available.",
         colorize st "yellow" "Please check if:",
         colorize st "yellow" "  1. Your GitHub token is valid (try \x27githubfetch --reset-token\x27)",
         colorize st "yellow" "  2. The username exists on GitHub",
         colorize st "yellow" "  3. The user has public contribution activity"] := rfl
  refine ⟨rfl, by rw [hsome], rfl, by rw [hsome]; rfl, ?_, rfl, by rw [hsome]⟩
  rw [hsome, hnone]
  intro heq
  simp at heq

/-- Witness for C2's amended statement at a concrete empty calendar. -/
theorem C2_amended_empty_states_witness :
    (get_contributions_heatmap_lines initColorState "u"
      (some ⟨0, []⟩) 80).1.length = 1 :=
  (C2_amended_empty_states initColorState "u" 80 ⟨0, []⟩ rfl).2.2.2.1

/-- Membership characterisation of the month-label scan, generalised over the
carried month and the starting week index. -/
theorem monthLabelsAux_mem_iff (ws : List ContributionWeek) :
    ∀ (cur : Option Nat) (i0 j : Nat) (s : String),
    ((j, s) ∈ monthLabelsAux cur i0 ws ↔
      ∃ k w m, ws.get? k = some w ∧ weekFirstMonth w = some m ∧
        j = i0 + k ∧ s = monthAbbr m ∧ trackAfter cur (ws.take k) ≠ some m) := by
  induction ws with
  | nil => intro cur i0 j s; simp [monthLabelsAux]
  | cons w ws ih =>
    intro cur i0 j s
    rcases hfm : weekFirstMonth w with _ | m
    · have hunf : monthLabelsAux cur i0 (w :: ws) = monthLabelsAux cur (i0 + 1) ws := by
        simp [monthLabelsAux, hfm]
      have hstep : ∀ k, trackAfter cur ((w :: ws).take (k + 1))
          = trackAfter cur (ws.take k) := by
        intro k
        simp [trackAfter, hfm]
      rw [hunf, ih]
      constructor
      · rintro ⟨k, w2, m2, hg, hf, hj, hs2, ht⟩
        refine ⟨k + 1, w2, m2, by simpa using hg, hf, by omega, hs2, ?_⟩
        rw [hstep]; exact ht
      · rintro ⟨k, w2, m2, hg, hf, hj, hs2, ht⟩
        cases k with
        | zero =>
          simp at hg
          subst hg
          rw [hfm] at hf
          cases hf
        | succ k =>
          refine ⟨k, w2, m2, by simpa using hg, hf, by omega, hs2, ?_⟩
          rw [hstep] at ht; exact ht
    · have hstep : ∀ k, trackAfter cur ((w :: ws).take (k + 1))
          = trackAfter (some m) (ws.take k) := by
        intro k
        simp [trackAfter, hfm]
      by_cases hne : some m ≠ cur
      · have hunf : monthLabelsAux cur i0 (w :: ws)
            = (i0, monthAbbr m) :: monthLabelsAux (some m) (i0 + 1) ws := by
          simp [monthLabelsAux, hfm, hne]
        rw [hunf]
        constructor
        · intro hmem
          rcases List.mem_cons.mp hmem with heq | hmem2
          · have hj : j = i0 := congrArg Prod.fst heq
            have hs2 : s = monthAbbr m := congrArg Prod.snd heq
            exact ⟨0, w, m, rfl, hfm, by omega, hs2,
              by simpa [trackAfter] using Ne.symm hne⟩
          · rcases (ih (some m) (i0 + 1) j s).mp hmem2 with ⟨k, w2, m2, hg, hf, hj, hs2, ht⟩
            refine ⟨k + 1, w2, m2, by simpa using hg, hf, by omega, hs2, ?_⟩
            rw [hstep]; exact ht
        · rintro ⟨k, w2, m2, hg, hf, hj, hs2, ht⟩
          cases k with
          | zero =>
            simp at hg
            subst hg
            rw [hfm] at hf
            have hm2 : m2 = m := (Option.some.inj hf).symm
            subst hm2
            have hj0 : j = i0 := by omega
            exact List.mem_cons.mpr (Or.inl (by simp [hj0, hs2]))
          | succ k =>
            refine List.mem_cons.mpr (Or.inr ((ih (some m) (i0 + 1) j s).mpr
              ⟨k, w2, m2, by simpa using hg, hf, by omega, hs2, ?_⟩))
            rw [hstep] at ht; exact ht
      · push_neg at hne
        subst hne
        have hunf : monthLabelsAux (some m) i0 (w :: ws)
            = monthLabelsAux (some m) (i0 + 1) ws := by
          simp [monthLabelsAux, hfm]
        rw [hunf, ih]
        constructor
        · rintro ⟨k, w2, m2, hg, hf, hj, hs2, ht⟩
          refine ⟨k + 1, w2, m2, by simpa using hg, hf, by omega, hs2, ?_⟩
          rw [hstep]; exact ht
        · rintro ⟨k, w2, m2, hg, hf, hj, hs2, ht⟩
          cases k with
          | zero =>
            simp at hg
            subst hg
            rw [hfm] at hf
            have hm2 : m2 = m := (Option.some.inj hf).symm
            subst hm2
            simp [trackAfter] at ht
          | succ k =>
            refine ⟨k, w2, m2, by simpa using hg, hf, by omega, hs2, ?_⟩
            rw [hstep] at ht; exact ht

/-- A 53-week example calendar: weeks 0-3 have their first day in January,
weeks 4-52 in February. -/
def exampleWeeks53 : List ContributionWeek :=
  [⟨[⟨"2024-01-07", 0⟩]⟩, ⟨[⟨"2024-01-14", 1⟩]⟩, ⟨[⟨"2024-01-21", 2⟩]⟩,
   ⟨[⟨"2024-01-28", 3⟩]⟩] ++ List.replicate 49 ⟨[⟨"2024-02-04", 1⟩]⟩

/-- C5: a `(week_idx, name)` month label is recorded exactly when that week's
first tracked day has a month differing from the month of the last preceding
week with a tracked first day (scanning weeks in order); and for the 53-week
example calendar whose weeks 0-3 start in January and week 4 in February, the
labels are "Jan" at week column offset 0 and "Feb" at week column offset 4. -/
theorem C5_month_labels (weeks : List ContributionWeek) (j : Nat) (s : String) :
    ((j, s) ∈ month_labels weeks ↔
      ∃ w m, weeks.get? j = some w ∧ weekFirstMonth w = some m ∧
        s = monthAbbr m ∧ trackAfter none (weeks.take j) ≠ some m) ∧
    month_labels exampleWeeks53 = [(0, "Jan"), (4, "Feb")] ∧
    exampleWeeks53.length = 53 ∧
    render_month_header ⟨true, true⟩ [(0, "Jan"), (4, "Feb")]
      = "       " ++ colorize ⟨true, true⟩ "light_blue" "Jan"
        ++ "    " ++ colorize ⟨true, true⟩ "light_blue" "Feb" := by
  refine ⟨?_, by decide, by decide, by decide⟩
  rw [month_labels, monthLabelsAux_mem_iff]
  constructor
  · rintro ⟨k, w, m, hg, hf, hj, hs, ht⟩
    have hjk : j = k := by omega
    subst hjk
    exact ⟨w, m, hg, hf, hs, ht⟩
  · rintro ⟨w, m, hg, hf, hs, ht⟩
    exact ⟨j, w, m, hg, hf, by omega, hs, ht⟩

/-- Witness for C5 at the concrete 53-week calendar. -/
theorem C5_month_labels_witness :
    (0, "Jan") ∈ month_labels exampleWeeks53 := by
  have h := (C5_month_labels exampleWeeks53 0 "Jan").2.1
  rw [h]
  exact List.mem_cons_self _ _

/-- Whether a call to the heatmap renderer reaches githubfetch.py line 406 and
so extends the color object with the two green attributes. -/
def heatmapMutates (contributions_data : Option ContributionCalendar) : Bool :=
  match contributions_data with
  | none => false
  | some data => !(decide (data.totalContributions = 0) || data.weeks.isEmpty)

/-- The color state returned by the heatmap renderer. -/
theorem heatmap_state (st : ColorState) (u : String)
    (cal : Option ContributionCalendar) (w : Int) :
    (get_contributions_heatmap_lines st u cal w).2
      = if heatmapMutates cal then ⟨true, true⟩ else st := by
  cases cal with
  | none => rfl
  | some data =>
    simp only [get_contributions_heatmap_lines, heatmapMutates]
    split_ifs <;> simp_all

/-- A one-day calendar (2024-01-07 is a Sunday). -/
def exampleCalendar : ContributionCalendar := ⟨1, [⟨[⟨"2024-01-07", 1⟩]⟩]⟩

/-- C8 counterexample: rendering a non-empty calendar mutates the shared color
object (it gains the `dark_green`/`light_green` attributes after the glyph
table has already been built), so a second invocation with identical
arguments returns different lines than the first: the first call's level-1
and level-4 glyphs are reset-colored, later calls color them. -/
theorem C8_renderer_not_pure :
    (get_contributions_heatmap_lines initColorState "u" (some exampleCalendar) 80).2
      ≠ initColorState ∧
    (get_contributions_heatmap_lines
        (get_contributions_heatmap_lines initColorState "u" (some exampleCalendar) 80).2
        "u" (some exampleCalendar) 80).1
      ≠ (get_contributions_heatmap_lines initColorState "u" (some exampleCalendar) 80).1 := by
  constructor <;> decide

/-- C8 amended: the renderer does mutate the shared color state, but the
mutation stabilises after one call: the state returned by a second invocation
with the same arguments equals the state it was given, and hence the second
and third (and all later) invocations return identical results. -/
theorem C8_amended_deterministic_after_first (st : ColorState) (u : String)
    (cal : Option ContributionCalendar) (w : Int) :
    (get_contributions_heatmap_lines
        ((get_contributions_heatmap_lines st u cal w).2) u cal w).2
      = (get_contributions_heatmap_lines st u cal w).2 ∧
    get_contributions_heatmap_lines
        ((get_contributions_heatmap_lines
          ((get_contributions_heatmap_lines st u cal w).2) u cal w).2) u cal w
      = get_contributions_heatmap_lines
          ((get_contributions_heatmap_lines st u cal w).2) u cal w := by
  have h1 := heatmap_state st u cal w
  have h2 := heatmap_state (get_contributions_heatmap_lines st u cal w).2 u cal w
  have hfix : (get_contributions_heatmap_lines
      ((get_contributions_heatmap_lines st u cal w).2) u cal w).2
      = (get_contributions_heatmap_lines st u cal w).2 := by
    rw [h2, h1]
    cases hmut : heatmapMutates cal <;> simp
  exact ⟨hfix, by rw [hfix]⟩

/-- Python `int()` truncation toward zero, on an exact rational. -/
def pyInt (x : ℚ) : Int := if 0 ≤ x then ⌊x⌋ else ⌈x⌉

/-- Constant `IMAGE_HEIGHT_CELLS` (githubfetch.py line 684). -/
def IMAGE_HEIGHT_CELLS : Nat := 15

/-- Constant `TEXT_GAP` (githubfetch.py line 685). -/
def TEXT_GAP : Nat := 6

/-- Embedding of `image_width_cells = int(IMAGE_HEIGHT_CELLS * aspect_ratio * 2.0)`
(githubfetch.py line 704); the float arithmetic is modelled as exact rational
arithmetic, which agrees with Python on dyadic aspect ratios. -/
def image_width_cells (aspect_ratio : ℚ) : Int :=
  pyInt ((IMAGE_HEIGHT_CELLS : ℚ) * aspect_ratio * 2)

/-- Embedding of `text_start_column = image_width_cells + TEXT_GAP` (githubfetch.py
line 707). -/
def text_start_column (aspect_ratio : ℚ) : Int :=
  image_width_cells aspect_ratio + (TEXT_GAP : Int)

/-- One unit of terminal output produced by the compositor: a printed line
(`print`), a raw escape write (`sys.stdout.write`), or a line printed to
stderr. -/
inductive OutEvent where
  | line (s : String)
  | write (s : String)
  | err (s : String)
deriving DecidableEq

/-- The collaborators and ambient state the compositor interacts with:
whether `imgcat` is available (`check_imgcat_installed` returned a truthy
value), the outcome of fetching and decoding the avatar (the pixel width and
height of the decoded image, or the message of the exception raised during
`requests.get`/`raise_for_status`/`Image.open`), the outcome of the external
`imgcat` paint invocation, and the terminal width in columns
(`os.get_terminal_size().columns`, modelled as always available). -/
structure CompositorEnv where
  imgcatAvailable : Bool
  avatarFetch : Except String (Nat × Nat)
  paintResult : Except String Unit
  terminalWidth : Nat

/-- Python `starred_count or 0`. -/
def pyOrNat (v : Option Nat) : Nat := v.getD 0

/-- Emission of `print(line)` for each display line, re-issuing the rightward cursor move
before every line except the last (githubfetch.py lines 752-755). -/
def emit_lines (move : OutEvent) : List String → List OutEvent
  | [] => []
  | [l] => [OutEvent.line l]
  | l :: ls => OutEvent.line l :: move :: emit_lines move ls

/-- The display lines assembled by both compositor branches
(githubfetch.py lines 735-747 and 771-783): the profile block (with an empty
repository list in heatmap mode), and in heatmap mode the trailing-trimmed
profile block followed directly by the heatmap lines. -/
def assemble_display_lines (st : ColorState) (wrap : String → Int → List String)
    (user_data : UserData) (starred_count : Option Nat)
    (pinned_repos : Option (List RepoData))
    (contributions_data : Option ContributionCalendar) (width : Int) :
    List String × ColorState :=
  let show_heatmap := contributions_data.isSome
  let user_info_lines := get_user_info_lines st wrap user_data (pyOrNat starred_count)
    (if show_heatmap then [] else pinned_repos.getD []) width
  if show_heatmap then
    let trimmed := trim_trailing_empty_lines user_info_lines
    let hm := get_contributions_heatmap_lines st user_data.login contributions_data width
    (trimmed ++ hm.1, hm.2)
  else (user_info_lines, st)

/-- The image branch inside the `try` (githubfetch.py lines 697-762): avatar
fetch and decode, layout geometry, the external paint invocation, text
assembly and cursor-escape emission.  An `.error` is the exception that the
surrounding `except` catches; failures can arise at the fetch/decode step or
at the paint step. -/
def image_branch (env : CompositorEnv) (st : ColorState)
    (wrap : String → Int → List String) (user_data : UserData)
    (starred_count : Option Nat) (pinned_repos : Option (List RepoData))
    (contributions_data : Option ContributionCalendar) :
    Except String (List OutEvent × ColorState) :=
  match env.avatarFetch with
  | .error e => .error e
  | .ok wh =>
    let aspect_ratio : ℚ := (wh.1 : ℚ) / (wh.2 : ℚ)
    let tsc := text_start_column aspect_ratio
    let available_text_width := (env.terminalWidth : Int) - tsc
    match env.paintResult with
    | .error e => .error e
    | .ok _ =>
      let result := assemble_display_lines st wrap user_data starred_count pinned_repos
        contributions_data available_text_width
      let display_lines := result.1
      let move := OutEvent.write ("\x1b[" ++ toString tsc ++ "C")
      let n_down : Nat := IMAGE_HEIGHT_CELLS - display_lines.length
      .ok ([OutEvent.write ("\x1b[" ++ toString IMAGE_HEIGHT_CELLS ++ "A"), move]
            ++ emit_lines move display_lines
            ++ (if 0 < n_down then [OutEvent.write ("\x1b[" ++ toString n_down ++ "B")] else [])
            ++ [OutEvent.line ""], result.2)

/-- The text-only fallback branch (githubfetch.py lines 767-788): format at
`terminal_width - 10`, print one blank line, every display line behind a
two-space margin, and one closing blank line. -/
def text_only_branch (env : CompositorEnv) (st : ColorState)
    (wrap : String → Int → List String) (user_data : UserData)
    (starred_count : Option Nat) (pinned_repos : Option (List RepoData))
    (contributions_data : Option ContributionCalendar) :
    List OutEvent × ColorState :=
  let result := assemble_display_lines st wrap user_data starred_count pinned_repos
    contributions_data ((env.terminalWidth : Int) - 10)
  (OutEvent.line "" :: (result.1.map (fun l => OutEvent.line ("  " ++ l))
    ++ [OutEvent.line ""]), result.2)

/-- Embedding of `display_side_by_side` (githubfetch.py lines 682-788): with `imgcat`
available, run the image branch; if it raises, print the error to stderr and
fall through to the text-only branch; without `imgcat`, run the text-only
branch directly. -/
def display_side_by_side (env : CompositorEnv) (st : ColorState)
    (wrap : String → Int → List String) (user_data : UserData)
    (starred_count : Option Nat) (pinned_repos : Option (List RepoData))
    (contributions_data : Option ContributionCalendar) :
    List OutEvent × ColorState :=
  if env.imgcatAvailable then
    match image_branch env st wrap user_data starred_count pinned_repos contributions_data with
    | .ok out => out
    | .error e =>
      let fallback := text_only_branch env st wrap user_data starred_count pinned_repos
        contributions_data
      (OutEvent.err (colorize st "red" ("Error displaying avatar: " ++ e)) :: fallback.1,
       fallback.2)
  else
    text_only_branch env st wrap user_data starred_count pinned_repos contributions_data

/-- C3 counterexample: for a decoded 5×4 image the aspect ratio is 1.25
(exactly representable in binary floating point, so the modelled rational
arithmetic agrees with the Python float computation), and the code computes
`int(15 * 1.25 * 2.0) = 37`, while the claimed `round(...)` is 38. -/
theorem C3_int_is_not_round :
    image_width_cells ((5 : ℚ) / 4) ≠ round ((IMAGE_HEIGHT_CELLS : ℚ) * ((5 : ℚ) / 4) * 2) := by
  have h1 : image_width_cells ((5 : ℚ) / 4) = 37 := by
    rw [image_width_cells, pyInt, if_pos (by norm_num [IMAGE_HEIGHT_CELLS])]
    rw [show (IMAGE_HEIGHT_CELLS : ℚ) * ((5 : ℚ) / 4) * 2 = 75 / 2 by
      norm_num [IMAGE_HEIGHT_CELLS]]
    rw [Int.floor_eq_iff]
    norm_num
  have h2 : round ((IMAGE_HEIGHT_CELLS : ℚ) * ((5 : ℚ) / 4) * 2) = 38 := by
    rw [show (IMAGE_HEIGHT_CELLS : ℚ) * ((5 : ℚ) / 4) * 2 = 75 / 2 by
      norm_num [IMAGE_HEIGHT_CELLS]]
    rw [round_eq, Int.floor_eq_iff]
    norm_num
  rw [h1, h2]
  decide

/-- C3 amended: the compositor truncates rather than rounds:
`imageWidthCells = int(15 * aspectRatio * 2.0)` is the floor of
`30 * aspectRatio` for the nonnegative aspect ratios of real images,
`textStartColumn = imageWidthCells + 6`, and for aspect ratio 1.0 the
geometry is `imageWidthCells = 30`, `textStartColumn = 36`. -/
theorem C3_amended_truncated_geometry (a : ℚ) (ha : 0 ≤ a) :
    (image_width_cells a : ℚ) ≤ 15 * a * 2 ∧
    15 * a * 2 < (image_width_cells a : ℚ) + 1 ∧
    text_start_column a = image_width_cells a + 6 ∧
    image_width_cells 1 = 30 ∧ text_start_column 1 = 36 := by
  have hx : (0 : ℚ) ≤ (IMAGE_HEIGHT_CELLS : ℚ) * a * 2 := by
    have : (0 : ℚ) ≤ (15 : ℚ) * a * 2 := by positivity
    simpa [IMAGE_HEIGHT_CELLS] using this
  have hiw : image_width_cells a = ⌊(IMAGE_HEIGHT_CELLS : ℚ) * a * 2⌋ := by
    rw [image_width_cells, pyInt, if_pos hx]
  have h15 : (IMAGE_HEIGHT_CELLS : ℚ) = 15 := by norm_num [IMAGE_HEIGHT_CELLS]
  refine ⟨?_, ?_, rfl, ?_, ?_⟩
  · rw [hiw]
    have := Int.floor_le ((IMAGE_HEIGHT_CELLS : ℚ) * a * 2)
    rwa [h15] at this
  · rw [hiw]
    have := Int.lt_floor_add_one ((IMAGE_HEIGHT_CELLS : ℚ) * a * 2)
    rw [h15] at this
    exact_mod_cast this
  · rw [image_width_cells, pyInt, if_pos (by norm_num [IMAGE_HEIGHT_CELLS])]
    rw [show (IMAGE_HEIGHT_CELLS : ℚ) * 1 * 2 = 30 by norm_num [IMAGE_HEIGHT_CELLS]]
    exact Int.floor_intCast 30
  · rw [text_start_column, image_width_cells, pyInt,
      if_pos (by norm_num [IMAGE_HEIGHT_CELLS])]
    rw [show (IMAGE_HEIGHT_CELLS : ℚ) * 1 * 2 = 30 by norm_num [IMAGE_HEIGHT_CELLS]]
    norm_num [TEXT_GAP]

/-- Witness for C3's amended statement at aspect ratio 1. -/
theorem C3_amended_truncated_geometry_witness :
    image_width_cells 1 = 30 ∧ text_start_column 1 = 36 :=
  ⟨(C3_amended_truncated_geometry 1 (by norm_num)).2.2.2.1,
   (C3_amended_truncated_geometry 1 (by norm_num)).2.2.2.2⟩

/-- An example profile used by concrete witnesses. -/
def exampleUser : UserData := ⟨"octocat", none, 8, none, none, 10, 9⟩

/-- C4: with `imgcat` available, a failure at the avatar fetch/decode step or
at the external paint step is caught: the compositor's output is the stderr
error line followed exactly by the text-only fallback output; the fallback
formats the text at `terminalWidth - 10` columns (profile block, plus the
trimmed-profile-and-heatmap combination in heatmap mode), indents every
display line by a fixed two-space margin and brackets the block with one blank
line before and after.  No image-branch failure escapes: the result is always
an ordinary output value. -/
theorem C4_image_failure_falls_back (env : CompositorEnv) (st : ColorState)
    (wrap : String → Int → List String) (user_data : UserData)
    (starred_count : Option Nat) (pinned_repos : Option (List RepoData))
    (contributions_data : Option ContributionCalendar) (e : String)
    (himg : env.imgcatAvailable = true)
    (hfail : env.avatarFetch = .error e ∨
      ((∃ wh, env.avatarFetch = .ok wh) ∧ env.paintResult = .error e)) :
    display_side_by_side env st wrap user_data starred_count pinned_repos contributions_data
      = (OutEvent.err (colorize st "red" ("Error displaying avatar: " ++ e))
          :: (text_only_branch env st wrap user_data starred_count pinned_repos
              contributions_data).1,
        (text_only_branch env st wrap user_data starred_count pinned_repos
            contributions_data).2) ∧
    (text_only_branch env st wrap user_data starred_count pinned_repos
        contributions_data).1
      = OutEvent.line ""
          :: ((assemble_display_lines st wrap user_data starred_count pinned_repos
              contributions_data ((env.terminalWidth : Int) - 10)).1.map
                (fun l => OutEvent.line ("  " ++ l))
            ++ [OutEvent.line ""]) ∧
    (contributions_data = none →
      (assemble_display_lines st wrap user_data starred_count pinned_repos
          contributions_data ((env.terminalWidth : Int) - 10)).1
        = get_user_info_lines st wrap user_data (pyOrNat starred_count)
            (pinned_repos.getD []) ((env.terminalWidth : Int) - 10)) ∧
    (∀ cal, contributions_data = some cal →
      (assemble_display_lines st wrap user_data starred_count pinned_repos
          contributions_data ((env.terminalWidth : Int) - 10)).1
        = trim_trailing_empty_lines (get_user_info_lines st wrap user_data
            (pyOrNat starred_count) [] ((env.terminalWidth : Int) - 10))
          ++ (get_contributions_heatmap_lines st user_data.login (some cal)
              ((env.terminalWidth : Int) - 10)).1) := by
  have hib : image_branch env st wrap user_data starred_count pinned_repos
      contributions_data = .error e := by
    rcases hfail with hf | ⟨⟨wh, hok⟩, hp⟩
    · simp only [image_branch, hf]
    · simp only [image_branch, hok, hp]
  refine ⟨?_, rfl, ?_, ?_⟩
  · simp only [display_side_by_side, himg, if_true, hib]
  · intro hc; subst hc; rfl
  · intro cal hc; subst hc; rfl

/-- Witness for C4: a concrete failing avatar fetch produces the stderr
error line at the head of the output. -/
theorem C4_image_failure_falls_back_witness :
    (display_side_by_side ⟨true, .error "boom", .ok (), 80⟩ initColorState
        (fun s _ => [s]) exampleUser none none none).1.head?
      = some (OutEvent.err (colorize initColorState "red"
          "Error displaying avatar: boom")) := by
  have h := C4_image_failure_falls_back ⟨true, .error "boom", .ok (), 80⟩ initColorState
    (fun s _ => [s]) exampleUser none none none "boom" rfl (Or.inl rfl)
  rw [h.1]
  rfl

/-- C10: when a contribution calendar is supplied (heatmap mode) the
compositor's output is independent of the supplied pinned-repository list —
both the image branch and the text-only branch rebuild the profile block with
an empty repository list — and a profile block built with an empty repository
list never contains the "Pinned Repositories:" section header line. -/
theorem C10_heatmap_ignores_repo_list (env : CompositorEnv) (st : ColorState)
    (wrap : String → Int → List String) (user_data : UserData)
    (starred_count : Option Nat) (cal : ContributionCalendar)
    (repos1 repos2 : Option (List RepoData)) :
    display_side_by_side env st wrap user_data starred_count repos1 (some cal)
      = display_side_by_side env st wrap user_data starred_count repos2 (some cal) ∧
    ∀ tw : Int, colorize st "green" "Pinned Repositories:"
      ∉ get_user_info_lines st wrap user_data (pyOrNat starred_count) [] tw :=
  ⟨rfl, fun tw => pinned_header_not_mem st wrap user_data (pyOrNat starred_count) tw⟩

end Githubfetch
